import Mathlib

/-!
Shallow embedding of the Letterboxd-Wrapped analytics core
(src/lib/analytics.ts, src/components/FileUpload.tsx, and the page-level
pipeline in app/page.tsx) together with proofs about the behaviour the
specification describes.

Modelling conventions:
* JavaScript numbers that can be `NaN` are modelled by `JSNum`
  (a rational or `nan`).  Exact rational arithmetic stands in for IEEE
  doubles; all quantities that appear here are small sums, counts and
  divisions for which the idealisation is standard.
* `Math.sqrt` forces real arithmetic, so the taste-profile computation is
  carried out over `JReal := Option ℝ` (with `none` playing `NaN`).
* `Math.round x` is `⌊x + 1/2⌋` (JavaScript rounds halves towards +∞).
* JavaScript object iteration order matters in `detectTargetYear` and
  `calculateDistribution`: integer-like keys (years, month numbers)
  enumerate in ascending numeric order, string keys in insertion order.
  `Array.prototype.sort` is a stable sort; it is modelled by
  `List.mergeSort`.
* `new Date(s)` is modelled for ISO `YYYY-MM-DD` date (optionally
  date-time, separated by `T`) strings — the format of a Letterboxd
  export; every other string is treated as an unparseable date.
-/

namespace LBWrapped

/-- A JavaScript number appearing in a parsed diary record: either an
actual (finite) numeric value, modelled as a rational, or `NaN`. -/
inductive JSNum where
  | nan : JSNum
  | num (q : ℚ) : JSNum
deriving DecidableEq

/-- `isNaN` on a `JSNum`. -/
def JSNum.isNaN : JSNum → Bool
  | .nan => true
  | .num _ => false

/-- Numeric value of a list of decimal digit characters (most significant
first), as read by JavaScript numeric parsing. -/
def digitsToNat (ds : List Char) : ℕ :=
  ds.foldl (fun n c => 10 * n + (c.toNat - 48)) 0

/-- Model of JavaScript `parseFloat` restricted to the shapes that occur
in a rating column: an optional sign followed by decimal digits with an
optional fractional part; the longest numeric prefix is read and trailing
junk is ignored; if no numeric prefix exists the result is `NaN`.
(Exponents and `Infinity` literals are not modelled.) -/
def jsParseFloat (s : String) : JSNum :=
  let p : ℚ × List Char :=
    match s.data with
    | '-' :: t => (-1, t)
    | '+' :: t => (1, t)
    | t => (1, t)
  let intPart := p.2.takeWhile Char.isDigit
  let rest := p.2.dropWhile Char.isDigit
  match rest with
  | '.' :: t =>
    let fracPart := t.takeWhile Char.isDigit
    if intPart.isEmpty && fracPart.isEmpty then .nan
    else .num (p.1 * ((digitsToNat intPart : ℚ) +
      (digitsToNat fracPart : ℚ) / (10 : ℚ) ^ fracPart.length))
  | _ =>
    if intPart.isEmpty then .nan
    else .num (p.1 * (digitsToNat intPart : ℚ))

/-- Model of JavaScript `parseInt` (base 10): an optional sign followed by
decimal digits; trailing junk ignored; `NaN` if no digits. -/
def jsParseInt (s : String) : JSNum :=
  let p : ℚ × List Char :=
    match s.data with
    | '-' :: t => (-1, t)
    | '+' :: t => (1, t)
    | t => (1, t)
  let ds := p.2.takeWhile Char.isDigit
  if ds.isEmpty then .nan
  else .num (p.1 * (digitsToNat ds : ℚ))

/-- `Math.round` for exact rationals: JavaScript rounds to the nearest
integer, halves towards +∞, i.e. `⌊x + 1/2⌋`. -/
def jsRound (q : ℚ) : ℤ := ⌊q + 1 / 2⌋

/-- A diary record as produced by `parseCSV` (src/lib/types.ts
`DiaryEntry` after the numeric normalisation in parseCSV): `Rating` is
`null` (`none`) or a number that may be `NaN`; `Year` is a number that may
be `NaN`.  The pass-through fields that analytics never reads
(`Letterboxd URI`, `Tags`, `Watched Date`) are omitted. -/
structure DiaryEntry where
  Date : String
  Name : String
  Year : JSNum
  Rating : Option JSNum
  Rewatch : String
deriving DecidableEq

/-- A raw CSV record as delivered by the header-keyed CSV library: every
recognised field is a string, the empty string standing for a missing or
empty field. -/
structure RawEntry where
  Date : String
  Name : String
  Year : String
  Rating : String
  Rewatch : String
deriving DecidableEq

/-- The per-record normalisation inside `parseCSV`
(src/lib/analytics.ts lines 14–18): a truthy (non-empty) rating string is
run through `parseFloat`, a falsy one becomes `null`; a truthy year
string is run through `parseInt`, a falsy one becomes `0`. -/
def parseCSVRecord (r : RawEntry) : DiaryEntry :=
  { Date := r.Date
    Name := r.Name
    Year := if r.Year ≠ "" then jsParseInt r.Year else .num 0
    Rating := if r.Rating ≠ "" then some (jsParseFloat r.Rating) else none
    Rewatch := r.Rewatch }

/-- `parseCSV` (src/lib/analytics.ts lines 7–19) after the CSV library
has split the text into header-keyed records: the record-wise map. -/
def parseCSV (rows : List RawEntry) : List DiaryEntry :=
  rows.map parseCSVRecord

/-- The filter used for `ratedFilms` in `calculateStats`
(line 59): `e.Rating !== null && !isNaN(e.Rating)`. -/
def isRated (e : DiaryEntry) : Bool :=
  e.Rating.any fun r => !r.isNaN

/-- The rational value of an entry whose rating passed `isRated`. -/
def ratingValue (e : DiaryEntry) : ℚ :=
  match e.Rating with
  | some (.num q) => q
  | _ => 0

/-- `MovieStats` (src/lib/types.ts lines 20–27). -/
structure MovieStats where
  totalFilms : ℕ
  uniqueFilms : ℕ
  totalHours : ℕ
  avgRating : ℚ
  rewatches : ℕ
  rewatchPct : ℤ
deriving DecidableEq

/-- `calculateStats` (src/lib/analytics.ts lines 54–75). -/
def calculateStats (entries : List DiaryEntry) : MovieStats :=
  let totalFilms := entries.length
  let uniqueFilms := (entries.map (·.Name)).dedup.length
  let rewatches := (entries.filter (fun e => e.Rewatch.toLower = "yes")).length
  let ratedFilms := entries.filter isRated
  let avgRating : ℚ :=
    if 0 < ratedFilms.length then
      ((jsRound (((ratedFilms.map ratingValue).sum / (ratedFilms.length : ℚ)) * 100) : ℤ) : ℚ) / 100
    else 0
  { totalFilms := totalFilms
    uniqueFilms := uniqueFilms
    totalHours := 2 * totalFilms
    avgRating := avgRating
    rewatches := rewatches
    rewatchPct :=
      if 0 < totalFilms then jsRound (((rewatches : ℚ) / (totalFilms : ℚ)) * 100) else 0 }

/-- Average rating as the specification words it: the multiset of
non-null, non-NaN ratings is extracted; the average is their sum divided
by their count, rounded to 2 decimal places half-up; `0` when no entry
has such a rating. -/
def specAvgRating (entries : List DiaryEntry) : ℚ :=
  let rs := entries.filterMap fun e =>
    match e.Rating with
    | some (.num q) => some q
    | _ => none
  if rs.length = 0 then 0
  else ((⌊(rs.sum / (rs.length : ℚ)) * 100 + 1 / 2⌋ : ℤ) : ℚ) / 100

/-- A parsed calendar date (the observable part of a valid JavaScript
`Date` that the analytics reads: year, month 1–12, day of month). -/
structure CalDate where
  year : ℤ
  month : ℕ
  day : ℕ
deriving DecidableEq

/-- Gregorian leap-year test. -/
def isLeapYear (y : ℤ) : Bool :=
  (y % 4 == 0 && y % 100 != 0) || y % 400 == 0

/-- Number of days in a month (month given 1–12). -/
def daysInMonth (y : ℤ) (m : ℕ) : ℕ :=
  if m = 2 then (if isLeapYear y then 29 else 28)
  else if m = 4 ∨ m = 6 ∨ m = 9 ∨ m = 11 then 30
  else 31

/-- Model of `new Date(s)` validity and field extraction for the ISO
`YYYY-MM-DD` strings of a Letterboxd export, optionally followed by a
`T`-separated time part; any other string is treated as an unparseable
date (`isNaN(date.getTime())`). -/
def jsParseDate (s : String) : Option CalDate :=
  match s.data with
  | y1 :: y2 :: y3 :: y4 :: '-' :: m1 :: m2 :: '-' :: d1 :: d2 :: rest =>
    if (y1.isDigit && y2.isDigit && y3.isDigit && y4.isDigit &&
        m1.isDigit && m2.isDigit && d1.isDigit && d2.isDigit &&
        (rest.isEmpty || rest.headD ' ' == 'T')) then
      let y : ℤ := (digitsToNat [y1, y2, y3, y4] : ℤ)
      let m := digitsToNat [m1, m2]
      let d := digitsToNat [d1, d2]
      if 1 ≤ m ∧ m ≤ 12 ∧ 1 ≤ d ∧ d ≤ daysInMonth y m then some ⟨y, m, d⟩
      else none
    else none
  | _ => none

/-- The year of the parsed date of an entry, when the date parses. -/
def entryYear (e : DiaryEntry) : Option ℤ :=
  (jsParseDate e.Date).map CalDate.year

/-- The years of all entries whose dates parse, in entry order
(the multiset counted by `yearCounts` in `detectTargetYear`). -/
def parsedYears (entries : List DiaryEntry) : List ℤ :=
  entries.filterMap entryYear

/-- The `Object.entries(yearCounts)` list of `detectTargetYear`
(src/lib/analytics.ts lines 25–35): one `(year, count)` pair per distinct
parsed year; integer-like JavaScript object keys enumerate in ascending
numeric order. -/
def yearCountPairs (entries : List DiaryEntry) : List (ℤ × ℕ) :=
  (((parsedYears entries).dedup).mergeSort (fun a b => a ≤ b)).map
    (fun y => (y, (parsedYears entries).count y))

/-- `detectTargetYear` (src/lib/analytics.ts lines 24–39): the year pairs
are stably sorted by descending count and the first key is returned;
when no entry has a parseable date, the current system year (passed here as the
explicit parameter `currentYear`) is returned. -/
def detectTargetYear (entries : List DiaryEntry) (currentYear : ℤ) : ℤ :=
  match ((yearCountPairs entries).mergeSort (fun a b => b.2 ≤ a.2)).head? with
  | none => currentYear
  | some p => p.1

/-- `filterByYear` (src/lib/analytics.ts lines 44–49). -/
def filterByYear (entries : List DiaryEntry) (year : ℤ) : List DiaryEntry :=
  entries.filter fun e =>
    match jsParseDate e.Date with
    | some d => d.year == year
    | none => false

/-- The month labels of `calculateDistribution` (line 81). -/
def monthNames : List String :=
  ["Jan", "Feb", "Mar", "Apr", "May", "Jun", "Jul", "Aug", "Sep", "Oct", "Nov", "Dec"]

/-- The day-of-week labels of `calculateDistribution` (line 82), indexed
by JavaScript `getDay()` (0 = Sunday). -/
def dayNames : List String :=
  ["Sunday", "Monday", "Tuesday", "Wednesday", "Thursday", "Friday", "Saturday"]

/-- Day of week of a calendar date (0 = Sunday), the value JavaScript
`getDay()` reports, via the Sakamoto congruence method (years here are nonnegative,
so truncating and flooring integer division agree). -/
def dayOfWeek (dt : CalDate) : ℕ :=
  let t : List ℤ := [0, 3, 2, 5, 0, 3, 5, 1, 4, 6, 2, 4]
  let y : ℤ := if dt.month < 3 then dt.year - 1 else dt.year
  ((y + y / 4 - y / 100 + y / 400 + t.getD (dt.month - 1) 0 + (dt.day : ℤ)) % 7).toNat

/-- Increment the value stored under key `k` in an association list that
models a JavaScript object whose keys are pre-initialised (`monthly[m]++`
/ `weekly[day]++`): enumeration order of the keys is unchanged. -/
def bumpKey {α : Type} [DecidableEq α] (l : List (α × ℕ)) (k : α) : List (α × ℕ) :=
  l.map fun p => if p.1 = k then (p.1, p.2 + 1) else p

/-- `ViewingDistribution` (src/lib/types.ts lines 36–41): the `monthly`
and `weekly` objects are modelled as association lists in JavaScript
enumeration order; both busiest fields are typed nullable. -/
structure ViewingDistribution where
  monthly : List (ℕ × ℕ)
  weekly : List (String × ℕ)
  busiestMonth : Option String
  busiestDay : Option String
deriving DecidableEq

/-- One `entries.forEach` step of `calculateDistribution` (lines 90–98):
an entry with a parseable date bumps its month bucket and its day-of-week
bucket; an unparseable date changes nothing. -/
def distStep (acc : List (ℕ × ℕ) × List (String × ℕ)) (e : DiaryEntry) :
    List (ℕ × ℕ) × List (String × ℕ) :=
  match jsParseDate e.Date with
  | some dt => (bumpKey acc.1 dt.month, bumpKey acc.2 (dayNames.getD (dayOfWeek dt) ""))
  | none => acc

/-- The pre-initialised month buckets (line 88): keys 1–12, all zero;
integer-like object keys enumerate ascending. -/
def monthlyInit : List (ℕ × ℕ) := (List.range 12).map fun i => (i + 1, 0)

/-- The pre-initialised day-of-week buckets (line 87): insertion order. -/
def weeklyInit : List (String × ℕ) := dayNames.map fun d => (d, 0)

/-- `calculateDistribution` (src/lib/analytics.ts lines 80–109): the
busiest labels come from the heads of the stably descending-sorted
`Object.entries` lists (`[0]`, null only if the sorted array is empty). -/
def calculateDistribution (entries : List DiaryEntry) : ViewingDistribution :=
  { monthly := (entries.foldl distStep (monthlyInit, weeklyInit)).1
    weekly := (entries.foldl distStep (monthlyInit, weeklyInit)).2
    busiestMonth :=
      (((entries.foldl distStep (monthlyInit, weeklyInit)).1.mergeSort
        fun a b => b.2 ≤ a.2).head?).map (fun p => monthNames.getD (p.1 - 1) "")
    busiestDay :=
      (((entries.foldl distStep (monthlyInit, weeklyInit)).2.mergeSort
        fun a b => b.2 ≤ a.2).head?).map (fun p => p.1) }

/-- The user-facing failure modes of the analysis pipeline in
`handleFileSelect` (app/page.tsx): the two thrown errors are distinct
messages — "No entries found" versus the insufficient-data message that
interpolates the filtered count and the detected year. -/
inductive AnalysisError where
  | noEntries : AnalysisError
  | insufficientData (count : ℕ) (year : ℤ) : AnalysisError
deriving DecidableEq

/-- The validation prefix of `handleFileSelect` (app/page.tsx lines
207–217): reject an empty parse, detect the target year, filter to it,
reject fewer than 5 filtered entries, and otherwise hand the filtered
list and its statistics onward. -/
def runAnalysis (entries : List DiaryEntry) (currentYear : ℤ) :
    Except AnalysisError (ℤ × List DiaryEntry × MovieStats) :=
  if entries.length = 0 then .error .noEntries
  else if (filterByYear entries (detectTargetYear entries currentYear)).length < 5 then
    .error (.insufficientData
      (filterByYear entries (detectTargetYear entries currentYear)).length
      (detectTargetYear entries currentYear))
  else .ok (detectTargetYear entries currentYear,
    filterByYear entries (detectTargetYear entries currentYear),
    calculateStats (filterByYear entries (detectTargetYear entries currentYear)))

/-- The character loop of `parseCSVLine`
(src/components/FileUpload.tsx lines 202–220): `cs` is the unread input,
`current` the field being accumulated, `inQuotes` the inside-literal
flag, `result` the fields already emitted; after the loop the last
`current` is pushed. -/
def parseCSVLineAux : List Char → List Char → Bool → List (List Char) → List (List Char)
  | [], current, _, result => result ++ [current]
  | c :: rest, current, inQuotes, result =>
    if c = '"' then parseCSVLineAux rest current (!inQuotes) result
    else if c = ',' ∧ inQuotes = false then parseCSVLineAux rest [] inQuotes (result ++ [current])
    else parseCSVLineAux rest (current ++ [c]) inQuotes result

/-- `parseCSVLine` (src/components/FileUpload.tsx lines 202–220), on the
character list of the line. -/
def parseCSVLine (line : List Char) : List (List Char) :=
  parseCSVLineAux line [] false []

/-- A JavaScript number in the real-valued taste-profile computation:
`none` plays `NaN`.  Infinities cannot arise there — the only divisions
are by the rating count (at least 5 on the computing branch) and by the
nonzero constants 2.5, 5 and 100. -/
def JReal := Option ℝ

/-- JavaScript `+` (`NaN` absorbing). -/
noncomputable def JReal.add : JReal → JReal → JReal
  | some x, some y => some (x + y)
  | _, _ => none

/-- JavaScript `-` (`NaN` absorbing). -/
noncomputable def JReal.sub : JReal → JReal → JReal
  | some x, some y => some (x - y)
  | _, _ => none

/-- JavaScript `*` (`NaN` absorbing). -/
noncomputable def JReal.mul : JReal → JReal → JReal
  | some x, some y => some (x * y)
  | _, _ => none

/-- JavaScript division by a count (used only with a positive count). -/
noncomputable def JReal.divNat (a : JReal) (n : ℕ) : JReal :=
  a.map fun x => x / (n : ℝ)

/-- JavaScript division by a nonzero numeric constant. -/
noncomputable def JReal.divC (a : JReal) (c : ℝ) : JReal :=
  a.map fun x => x / c

/-- JavaScript multiplication by a numeric constant. -/
noncomputable def JReal.mulC (a : JReal) (c : ℝ) : JReal :=
  a.map fun x => x * c

/-- `Math.sqrt`: `NaN` on `NaN` and on negative input. -/
noncomputable def JReal.sqrt : JReal → JReal :=
  fun a => a.bind fun x => if x < 0 then none else some (Real.sqrt x)

/-- `Math.min` against a constant (`Math.min(NaN, c)` is `NaN`). -/
noncomputable def JReal.minC (a : JReal) (c : ℝ) : JReal :=
  a.map fun x => min x c

/-- `Math.round` (`NaN` on `NaN`; halves go up). -/
noncomputable def JReal.round : JReal → JReal :=
  fun a => a.map fun x => ((⌊x + 1 / 2⌋ : ℤ) : ℝ)

/-- JavaScript `<` against a constant: false when the left side is `NaN`. -/
def JReal.lt (a : JReal) (c : ℝ) : Prop := ∃ x, a = some x ∧ x < c

/-- JavaScript `>` against a constant: false when the left side is `NaN`. -/
def JReal.gt (a : JReal) (c : ℝ) : Prop := ∃ x, a = some x ∧ c < x

/-- Injection of a parsed rating into the real-valued computation. -/
noncomputable def toJReal : JSNum → JReal
  | .nan => none
  | .num q => some (q : ℝ)

/-- `ratings.reduce((a, b) => a + b, 0)` (line 161). -/
noncomputable def jsumJ (rs : List JSNum) : JReal :=
  rs.foldl (fun acc r => JReal.add acc (toJReal r)) (some 0)

/-- `ratings.reduce((sum, r) => sum + Math.pow(r - mean, 2), 0)`
(line 162). -/
noncomputable def sumSqDevJ (rs : List JSNum) (mean : JReal) : JReal :=
  rs.foldl
    (fun acc r =>
      JReal.add acc (JReal.mul (JReal.sub (toJReal r) mean) (JReal.sub (toJReal r) mean)))
    (some 0)

/-- `TasteProfile` (src/lib/types.ts lines 65–70); `isContrarian` is the
truth value of the boolean expression on line 172. -/
structure TasteProfile where
  stabilityScore : JReal
  ratingVolatility : JReal
  isContrarian : Prop
  contrarianScore : JReal

/-- The fixed neutral default profile returned for fewer than 5 rated
entries (line 156). -/
def defaultTasteProfile : TasteProfile :=
  { stabilityScore := some 50
    ratingVolatility := some 0.5
    isContrarian := False
    contrarianScore := some 0 }

/-- The non-null ratings of the entry list, in order (`ratedFilms.map(e
=> e.Rating!)`, line 160; note this keeps `NaN` ratings). -/
def ratingsOf (entries : List DiaryEntry) : List JSNum :=
  (entries.filter fun e => e.Rating.isSome).filterMap fun e => e.Rating

/-- `mean` (line 161). -/
noncomputable def meanJ (entries : List DiaryEntry) : JReal :=
  JReal.divNat (jsumJ (ratingsOf entries)) (ratingsOf entries).length

/-- `variance` (line 162): population variance in JavaScript semantics. -/
noncomputable def varianceJ (entries : List DiaryEntry) : JReal :=
  JReal.divNat (sumSqDevJ (ratingsOf entries) (meanJ entries)) (ratingsOf entries).length

/-- `ratingVolatility` before the 2-decimal rounding of the returned
record: `min(stdDev / 2.5, 1)` (line 166). -/
noncomputable def volatilityRaw (entries : List DiaryEntry) : JReal :=
  JReal.minC (JReal.divC (JReal.sqrt (varianceJ entries)) 2.5) 1

/-- `calculateTasteProfile` (src/lib/analytics.ts lines 152–175). -/
noncomputable def calculateTasteProfile (entries : List DiaryEntry) : TasteProfile :=
  if (entries.filter fun e => e.Rating.isSome).length < 5 then defaultTasteProfile
  else
    { stabilityScore :=
        JReal.round (JReal.mulC (JReal.sub (some 1) (volatilityRaw entries)) 100)
      ratingVolatility := JReal.divC (JReal.round (JReal.mulC (volatilityRaw entries) 100)) 100
      isContrarian := JReal.lt (meanJ entries) 3.5 ∨ JReal.gt (volatilityRaw entries) 0.6
      contrarianScore :=
        JReal.round (JReal.mulC (JReal.sub (some 1) (JReal.divC (meanJ entries) 5)) 100) }

/-- Population variance as the specification words it, over plain real
ratings: mean square deviation from the mean. -/
noncomputable def specPopVariance (rs : List ℝ) : ℝ :=
  ((rs.map fun r => (r - rs.sum / (rs.length : ℝ)) ^ 2).sum) / (rs.length : ℝ)

/-- Rounding a real to 2 decimal places, halves up (the rounding the specification
assigns to the stored `ratingVolatility`). -/
noncomputable def round2R (x : ℝ) : ℝ := ((⌊x * 100 + 1 / 2⌋ : ℤ) : ℝ) / 100

/-- An archetype record (src/lib/types.ts lines 50–57), restricted to
its static fields: `description` and the stats-interpolated `evidence`
display strings are presentational and omitted. -/
structure Archetype where
  id : String
  name : String
  emoji : String
  tagline : String
deriving DecidableEq

/-- The five fixed archetype records of `classifyArchetype`
(src/lib/analytics.ts lines 186–227), in declaration order. -/
def archetypes : List Archetype :=
  [⟨"marathoner", "The Marathoner", "🏃", "Quantity is a quality of its own."⟩,
   ⟨"comfort-rewinder", "The Comfort Rewinder", "🔁", "Why risk disappointment?"⟩,
   ⟨"chaos-curator", "The Chaos Curator", "🎲", "Predictability is for the weak."⟩,
   ⟨"prestige-purist", "The Prestige Purist", "🎭", "Only the finest for your eyes."⟩,
   ⟨"emotional-explorer", "The Emotional Explorer", "💔", "Cinema is therapy."⟩]

/-- Result of the JavaScript division `stats.rewatches /
stats.totalFilms` (line 181) on the nonnegative counts involved: `0/0`
is `NaN`, `a/0` with `a > 0` is `Infinity`, otherwise the finite
quotient. -/
inductive JSDivResult where
  | nan : JSDivResult
  | inf : JSDivResult
  | val (q : ℚ) : JSDivResult
deriving DecidableEq

/-- The JavaScript division of two counts. -/
def jsDivCounts (a b : ℕ) : JSDivResult :=
  if b = 0 then (if a = 0 then .nan else .inf) else .val ((a : ℚ) / (b : ℚ))

/-- `const rewatchRatio = stats.rewatches / stats.totalFilms`
(line 181): there is no guard on `totalFilms = 0`. -/
def rewatchRatio (stats : MovieStats) : JSDivResult :=
  jsDivCounts stats.rewatches stats.totalFilms

/-- JavaScript `>=` against a finite constant: false for `NaN`, true for
`Infinity`. -/
def JSDivResult.jge (v : JSDivResult) (c : ℚ) : Bool :=
  match v with
  | .nan => false
  | .inf => true
  | .val x => decide (c ≤ x)

open Classical in
/-- `classifyArchetype` (src/lib/analytics.ts lines 180–236): the
first-match decision list over the five archetype records. -/
noncomputable def classifyArchetype (entries : List DiaryEntry) (stats : MovieStats) :
    Archetype :=
  if 100 ≤ stats.totalFilms then archetypes.get ⟨0, by decide⟩
  else if (rewatchRatio stats).jge (3 / 10) then archetypes.get ⟨1, by decide⟩
  else if JReal.gt (calculateTasteProfile entries).ratingVolatility 0.5 then
    archetypes.get ⟨2, by decide⟩
  else if 4 ≤ stats.avgRating then archetypes.get ⟨3, by decide⟩
  else archetypes.get ⟨4, by decide⟩

/-- Concrete rated entry used by witnesses. -/
def entryRated4 : DiaryEntry :=
  ⟨"2024-01-01", "FilmA", .num 2000, some (.num 4), "No"⟩

/-- Concrete rated entry used by witnesses. -/
def entryRated3 : DiaryEntry :=
  ⟨"2024-02-01", "FilmB", .num 2001, some (.num 3), "Yes"⟩

/-- Concrete unrated entry used by witnesses. -/
def entryUnrated : DiaryEntry :=
  ⟨"bad-date", "FilmC", .num 0, none, ""⟩

/-- Raw record whose rating field is non-empty but non-numeric. -/
def rawNonNumericRating : RawEntry :=
  ⟨"2024-01-01", "FilmD", "2001", "abc", ""⟩

lemma ratedRatings_eq (entries : List DiaryEntry) :
    (entries.filterMap fun e =>
      match e.Rating with
      | some (.num q) => some q
      | _ => none) = (entries.filter isRated).map ratingValue := by
  induction entries with
  | nil => rfl
  | cons e t ih =>
    match h : e.Rating with
    | none => simp [List.filterMap_cons, List.filter_cons, isRated, h, ih]
    | some .nan => simp [List.filterMap_cons, List.filter_cons, isRated, JSNum.isNaN, h, ih]
    | some (.num q) =>
      simp [List.filterMap_cons, List.filter_cons, isRated, JSNum.isNaN, h, ih,
        ratingValue, Option.any]

/-- The head of a list stably sorted by descending measure is a member
attaining the maximal measure. -/
lemma head_mergeSort_max {α : Type} (f : α → ℕ) (l : List α) (p : α)
    (hp : (l.mergeSort (fun a b => f b ≤ f a)).head? = some p) :
    p ∈ l ∧ ∀ q ∈ l, f q ≤ f p := by
  have hperm := List.mergeSort_perm l (fun a b => f b ≤ f a)
  have hsorted := @List.sorted_mergeSort _ (fun a b => decide (f b ≤ f a))
    (fun a b c hab hbc => by
      simp only [decide_eq_true_eq] at *
      exact le_trans hbc hab)
    (fun a b => by
      simp only [Bool.or_eq_true, decide_eq_true_eq]
      exact le_total (f b) (f a)) l
  rcases hs : l.mergeSort (fun a b => f b ≤ f a) with _ | ⟨a, t⟩
  · rw [hs] at hp; simp at hp
  · rw [hs] at hp hperm hsorted
    simp only [List.head?_cons, Option.some.injEq] at hp
    rw [← hp]
    constructor
    · exact hperm.mem_iff.mp (List.mem_cons_self a t)
    · intro q hq
      have hq' : q ∈ a :: t := hperm.mem_iff.mpr hq
      rcases List.mem_cons.mp hq' with h | h
      · subst h; exact le_refl _
      · have := (List.pairwise_cons.mp hsorted).1 q h
        simpa using this

/-- Membership in `yearCountPairs`. -/
lemma mem_yearCountPairs {entries : List DiaryEntry} {p : ℤ × ℕ}
    (hp : p ∈ yearCountPairs entries) :
    p.1 ∈ parsedYears entries ∧ p.2 = (parsedYears entries).count p.1 := by
  unfold yearCountPairs at hp
  rcases List.mem_map.mp hp with ⟨y, hy, rfl⟩
  have hy' : y ∈ ((parsedYears entries).dedup).mergeSort (fun a b => a ≤ b) := hy
  have : y ∈ (parsedYears entries).dedup :=
    (List.mergeSort_perm _ _).mem_iff.mp hy'
  exact ⟨List.mem_dedup.mp this, rfl⟩

/-- Every parsed year contributes a pair to `yearCountPairs`. -/
lemma yearCountPairs_of_mem {entries : List DiaryEntry} {y : ℤ}
    (hy : y ∈ parsedYears entries) :
    (y, (parsedYears entries).count y) ∈ yearCountPairs entries := by
  unfold yearCountPairs
  refine List.mem_map.mpr ⟨y, ?_, rfl⟩
  exact (List.mergeSort_perm _ _).mem_iff.mpr (List.mem_dedup.mpr hy)

/-- When no entry has a parseable date, `detectTargetYear` falls back to the
current system year. -/
lemma detectTargetYear_of_no_parse {entries : List DiaryEntry}
    (h : parsedYears entries = []) (currentYear : ℤ) :
    detectTargetYear entries currentYear = currentYear := by
  unfold detectTargetYear
  have hpairs : yearCountPairs entries = [] := by
    unfold yearCountPairs
    rw [h]
    rw [(List.mergeSort_perm (([] : List ℤ).dedup) _).eq_nil]
    rfl
  rw [hpairs]
  rw [(List.mergeSort_perm ([] : List (ℤ × ℕ)) _).eq_nil]
  rfl

lemma bumpKey_length {α : Type} [DecidableEq α] (l : List (α × ℕ)) (k : α) :
    (bumpKey l k).length = l.length := by
  simp [bumpKey]

lemma foldl_distStep_lengths (entries : List DiaryEntry)
    (init : List (ℕ × ℕ) × List (String × ℕ)) :
    (entries.foldl distStep init).1.length = init.1.length ∧
    (entries.foldl distStep init).2.length = init.2.length := by
  induction entries generalizing init with
  | nil => exact ⟨rfl, rfl⟩
  | cons e t ih =>
    rw [List.foldl_cons]
    refine ⟨?_, ?_⟩ <;>
    · rcases h : jsParseDate e.Date with _ | dt <;>
        simp [(ih _).1, (ih _).2, distStep, h, bumpKey_length]

lemma foldl_distStep_of_no_parse {entries : List DiaryEntry}
    (h : ∀ e ∈ entries, jsParseDate e.Date = none)
    (init : List (ℕ × ℕ) × List (String × ℕ)) :
    entries.foldl distStep init = init := by
  induction entries generalizing init with
  | nil => rfl
  | cons e t ih =>
    rw [List.foldl_cons]
    have he : jsParseDate e.Date = none := h e (List.mem_cons_self e t)
    rw [show distStep init e = init by simp [distStep, he]]
    exact ih (fun x hx => h x (List.mem_cons_of_mem e hx)) init

lemma isSome_map_head {α β : Type} (l : List α) (f : α → β) (h : 0 < l.length) :
    ((l.head?).map f).isSome = true := by
  cases l with
  | nil => simp at h
  | cons a t => rfl

lemma parseCSVLineAux_quoted_run (f : List Char) (hf : '"' ∉ f) :
    ∀ (rest cur : List Char) (res : List (List Char)),
      parseCSVLineAux (f ++ rest) cur true res = parseCSVLineAux rest (cur ++ f) true res := by
  induction f with
  | nil => intro rest cur res; simp
  | cons c t ih =>
    intro rest cur res
    have hc : ¬ c = '"' := fun h => hf (h ▸ List.mem_cons_self c t)
    have hcomma : ¬ (c = ',' ∧ true = false) := fun h => Bool.noConfusion h.2
    rw [List.cons_append, parseCSVLineAux, if_neg hc, if_neg hcomma,
      ih (fun h => hf (List.mem_cons_of_mem c h)) rest (cur ++ [c]) res,
      List.append_assoc]
    rfl

lemma parseCSVLineAux_plain_run (g : List Char) (hq : '"' ∉ g) (hc : ',' ∉ g) :
    ∀ (rest cur : List Char) (res : List (List Char)),
      parseCSVLineAux (g ++ rest) cur false res = parseCSVLineAux rest (cur ++ g) false res := by
  induction g with
  | nil => intro rest cur res; simp
  | cons c t ih =>
    intro rest cur res
    have h1 : ¬ c = '"' := fun h => hq (h ▸ List.mem_cons_self c t)
    have h2 : ¬ (c = ',' ∧ false = false) := fun h => hc (h.1 ▸ List.mem_cons_self c t)
    rw [List.cons_append, parseCSVLineAux, if_neg h1, if_neg h2,
      ih (fun h => hq (List.mem_cons_of_mem c h)) (fun h => hc (List.mem_cons_of_mem c h))
        rest (cur ++ [c]) res,
      List.append_assoc]
    rfl

lemma filterMap_rating_length (l : List DiaryEntry)
    (h : ∀ e ∈ l, e.Rating.isSome = true) :
    (l.filterMap fun e => e.Rating).length = l.length := by
  induction l with
  | nil => rfl
  | cons e t ih =>
    rcases Option.isSome_iff_exists.mp (h e (List.mem_cons_self e t)) with ⟨v, hv⟩
    rw [List.filterMap_cons, hv]
    simp [ih fun x hx => h x (List.mem_cons_of_mem e hx)]

lemma ratingsOf_length (entries : List DiaryEntry) :
    (ratingsOf entries).length = (entries.filter fun e => e.Rating.isSome).length :=
  filterMap_rating_length _ fun _ he => (List.mem_filter.mp he).2

lemma jsumJ_go (qs : List ℚ) :
    ∀ x : ℝ, (qs.map JSNum.num).foldl (fun acc r => JReal.add acc (toJReal r)) (some x) =
      some (x + (qs.map fun q : ℚ => (q : ℝ)).sum) := by
  induction qs with
  | nil => intro x; simp
  | cons q t ih =>
    intro x
    simp only [List.map_cons, List.foldl_cons, List.sum_cons]
    rw [show JReal.add (some x) (toJReal (JSNum.num q)) = some (x + (q : ℝ)) from rfl, ih]
    rw [add_assoc]

lemma jsumJ_of_num (qs : List ℚ) :
    jsumJ (qs.map JSNum.num) = some ((qs.map fun q : ℚ => (q : ℝ)).sum) := by
  rw [jsumJ, jsumJ_go qs 0, zero_add]

lemma sumSqDevJ_go (qs : List ℚ) (m : ℝ) :
    ∀ x : ℝ, (qs.map JSNum.num).foldl
      (fun acc r => JReal.add acc
        (JReal.mul (JReal.sub (toJReal r) (some m)) (JReal.sub (toJReal r) (some m))))
      (some x) =
      some (x + (qs.map fun q : ℚ => ((q : ℝ) - m) * ((q : ℝ) - m)).sum) := by
  induction qs with
  | nil => intro x; simp
  | cons q t ih =>
    intro x
    simp only [List.map_cons, List.foldl_cons, List.sum_cons]
    rw [show JReal.add (some x)
        (JReal.mul (JReal.sub (toJReal (JSNum.num q)) (some m))
          (JReal.sub (toJReal (JSNum.num q)) (some m))) =
        some (x + ((q : ℝ) - m) * ((q : ℝ) - m)) from rfl, ih]
    rw [add_assoc]

lemma sumSqDevJ_of_num (qs : List ℚ) (m : ℝ) :
    sumSqDevJ (qs.map JSNum.num) (some m) =
      some ((qs.map fun q : ℚ => ((q : ℝ) - m) * ((q : ℝ) - m)).sum) := by
  rw [sumSqDevJ, sumSqDevJ_go qs m 0, zero_add]

lemma meanJ_of_num {entries : List DiaryEntry} {qs : List ℚ}
    (h : ratingsOf entries = qs.map JSNum.num) :
    meanJ entries = some ((qs.map fun q : ℚ => (q : ℝ)).sum / (qs.length : ℝ)) := by
  rw [meanJ, h, jsumJ_of_num]
  simp [JReal.divNat]

lemma varianceJ_of_num {entries : List DiaryEntry} {qs : List ℚ}
    (h : ratingsOf entries = qs.map JSNum.num) :
    varianceJ entries = some (specPopVariance (qs.map fun q : ℚ => (q : ℝ))) := by
  rw [varianceJ, h, meanJ_of_num h, sumSqDevJ_of_num]
  have hmaps : ((qs.map fun q : ℚ => (q : ℝ)).map
      fun r => (r - (qs.map fun q : ℚ => (q : ℝ)).sum / (qs.length : ℝ)) ^ 2) =
      qs.map fun q : ℚ =>
        ((q : ℝ) - (qs.map fun q : ℚ => (q : ℝ)).sum / (qs.length : ℝ)) *
        ((q : ℝ) - (qs.map fun q : ℚ => (q : ℝ)).sum / (qs.length : ℝ)) := by
    rw [List.map_map]
    refine List.map_congr_left fun q hq => ?_
    simp only [Function.comp_apply, List.length_map]
    ring
  simp only [specPopVariance, hmaps, JReal.divNat, List.length_map]
  rfl

lemma specPopVariance_nonneg (rs : List ℝ) : 0 ≤ specPopVariance rs := by
  refine div_nonneg (List.sum_nonneg fun x hx => ?_) (Nat.cast_nonneg _)
  rcases List.mem_map.mp hx with ⟨r, _, rfl⟩
  positivity

/-- C4: `calculateStats` computes `avgRating` as the sum of the non-null,
non-NaN ratings divided by the count of such rated entries only, rounded
to 2 decimal places half-up, and `avgRating = 0` when no entry has such a
rating; prepending an unrated entry changes neither numerator nor
denominator. -/
theorem calculateStats_avgRating_spec (entries : List DiaryEntry) :
    (calculateStats entries).avgRating = specAvgRating entries ∧
    ∀ e : DiaryEntry, e.Rating = none →
      (calculateStats (e :: entries)).avgRating = (calculateStats entries).avgRating := by
  constructor
  · unfold calculateStats specAvgRating jsRound
    rw [ratedRatings_eq]
    by_cases h : (entries.filter isRated).length = 0 <;>
      simp [h, Nat.pos_iff_ne_zero]
  · intro e he
    have hfilter : (e :: entries).filter isRated = entries.filter isRated := by
      simp [List.filter_cons, isRated, he]
    simp only [calculateStats, hfilter]

/-- Witness for C4 at a concrete input. -/
theorem calculateStats_avgRating_spec_witness :
    entryUnrated.Rating = none ∧
    (calculateStats (entryUnrated :: [entryRated4])).avgRating =
      (calculateStats [entryRated4]).avgRating :=
  ⟨rfl, (calculateStats_avgRating_spec [entryRated4]).2 entryUnrated rfl⟩

/-- C9: the average rating computed by `calculateStats` is invariant
under permutation of the entry list. -/
theorem calculateStats_avgRating_perm {l₁ l₂ : List DiaryEntry} (h : l₁.Perm l₂) :
    (calculateStats l₁).avgRating = (calculateStats l₂).avgRating := by
  have hf : (l₁.filter isRated).Perm (l₂.filter isRated) := h.filter isRated
  have hlen := hf.length_eq
  have hsum : ((l₁.filter isRated).map ratingValue).sum =
      ((l₂.filter isRated).map ratingValue).sum :=
    (hf.map ratingValue).sum_eq
  simp only [calculateStats, hlen, hsum]

/-- Witness for C9 at a concrete transposition. -/
theorem calculateStats_avgRating_perm_witness :
    ([entryRated4, entryRated3].Perm [entryRated3, entryRated4]) ∧
    (calculateStats [entryRated4, entryRated3]).avgRating =
      (calculateStats [entryRated3, entryRated4]).avgRating :=
  ⟨List.Perm.swap entryRated3 entryRated4 [],
    calculateStats_avgRating_perm (List.Perm.swap entryRated3 entryRated4 [])⟩

/-- C7 counterexample: a record with the non-numeric rating field "abc"
parses to `rating = NaN`, not `rating = null` as the claim states —
`parseFloat` of a non-numeric string is `NaN` and the code only maps the
empty (falsy) field to `null`. -/
theorem parseCSVRecord_nonNumeric_not_null :
    (parseCSVRecord rawNonNumericRating).Rating = some JSNum.nan ∧
    (parseCSVRecord rawNonNumericRating).Rating ≠ none := by
  constructor
  · rfl
  · intro h
    simp [parseCSVRecord, rawNonNumericRating] at h

/-- C7 amended: an empty rating field yields `rating = null`; a non-empty
rating field yields `parseFloat` of the field, which is `NaN` (not
`null`) when the field is non-numeric; an empty release-year field yields
`releaseYear = 0`. -/
theorem parseCSVRecord_rating_year (r : RawEntry) :
    (r.Rating = "" → (parseCSVRecord r).Rating = none) ∧
    (r.Rating ≠ "" → (parseCSVRecord r).Rating = some (jsParseFloat r.Rating)) ∧
    (r.Year = "" → (parseCSVRecord r).Year = JSNum.num 0) := by
  refine ⟨fun h => ?_, fun h => ?_, fun h => ?_⟩ <;> simp [parseCSVRecord, h]

/-- C8: a quote character toggles the inside-literal mode in which the
comma is literal text: a quoted field whose content `f` contains no quote
(but may contain commas) parses as the single field `f`, with the quote
characters stripped — both on its own and after a plain field `g`. -/
theorem parseCSVLine_quoted_field (f g : List Char) (hf : '"' ∉ f)
    (hg1 : '"' ∉ g) (hg2 : ',' ∉ g) :
    parseCSVLine ('"' :: (f ++ ['"'])) = [f] ∧
    parseCSVLine (g ++ ',' :: '"' :: (f ++ ['"'])) = [g, f] := by
  have hlast : ∀ (cur : List Char) (res : List (List Char)),
      parseCSVLineAux ('"' :: (f ++ ['"'])) cur false res = res ++ [cur ++ f] := by
    intro cur res
    rw [parseCSVLineAux, if_pos rfl]
    simp only [Bool.not_false]
    rw [parseCSVLineAux_quoted_run f hf ['"'] cur res, parseCSVLineAux, if_pos rfl]
    rfl
  constructor
  · have := hlast [] []
    simpa [parseCSVLine] using this
  · rw [parseCSVLine, parseCSVLineAux_plain_run g hg1 hg2 _ [] []]
    rw [show (',' :: '"' :: (f ++ ['"'])) = ',' :: ('"' :: (f ++ ['"'])) from rfl]
    rw [parseCSVLineAux, if_neg (by decide), if_pos ⟨rfl, rfl⟩]
    have := hlast [] [[] ++ g]
    simpa using this

/-- Witness for C8 on the line `a,"b,c",d` truncated to its first two
fields: the quoted field keeps its embedded comma and loses its quotes. -/
theorem parseCSVLine_quoted_field_witness :
    ('"' ∉ ['b', ',', 'c']) ∧
    parseCSVLine (['a'] ++ ',' :: '"' :: (['b', ',', 'c'] ++ ['"'])) = [['a'], ['b', ',', 'c']] :=
  ⟨by decide,
    (parseCSVLine_quoted_field ['b', ',', 'c'] ['a'] (by decide) (by decide) (by decide)).2⟩

/-- C6: with fewer than 5 rated (non-null) entries
`calculateTasteProfile` returns exactly the fixed neutral default record
(`stabilityScore = 50`, `ratingVolatility = 0.5`, `isContrarian` false,
`contrarianScore = 0`); with 5 or more rated entries (here with actual,
non-NaN ratings `qs`) it instead computes the stored volatility from the
population standard deviation: `round2(min(sqrt(popVariance) / 2.5, 1))`. -/
theorem calculateTasteProfile_threshold (entries : List DiaryEntry) :
    ((entries.filter fun e => e.Rating.isSome).length < 5 →
      calculateTasteProfile entries = defaultTasteProfile) ∧
    (∀ qs : List ℚ, ratingsOf entries = qs.map JSNum.num →
      5 ≤ (entries.filter fun e => e.Rating.isSome).length →
      (calculateTasteProfile entries).ratingVolatility =
        some (round2R (min
          (Real.sqrt (specPopVariance (qs.map fun q : ℚ => (q : ℝ))) / 2.5) 1))) := by
  constructor
  · intro h
    rw [calculateTasteProfile, if_pos h]
  · intro qs hqs h5
    rw [calculateTasteProfile, if_neg (not_lt.mpr h5)]
    show JReal.divC (JReal.round (JReal.mulC (volatilityRaw entries) 100)) 100 = _
    rw [volatilityRaw, varianceJ_of_num hqs]
    have hv0 : ¬ specPopVariance (qs.map fun q : ℚ => (q : ℝ)) < 0 :=
      not_lt.mpr (specPopVariance_nonneg _)
    simp [JReal.sqrt, JReal.divC, JReal.minC, JReal.mulC, JReal.round, round2R, hv0]

/-- Witness for C6 at the empty entry list (0 rated entries). -/
theorem calculateTasteProfile_threshold_witness :
    ((List.filter (fun e => e.Rating.isSome) ([] : List DiaryEntry)).length < 5) ∧
    calculateTasteProfile [] = defaultTasteProfile :=
  ⟨by decide, (calculateTasteProfile_threshold []).1 (by decide)⟩

/-- C1: `classifyArchetype` is the five-rule decision list in fixed
priority order; the first matching rule wins. -/
theorem classifyArchetype_decision_list (entries : List DiaryEntry) (stats : MovieStats) :
    (100 ≤ stats.totalFilms → (classifyArchetype entries stats).id = "marathoner") ∧
    (stats.totalFilms < 100 → (rewatchRatio stats).jge (3 / 10) = true →
      (classifyArchetype entries stats).id = "comfort-rewinder") ∧
    (stats.totalFilms < 100 → (rewatchRatio stats).jge (3 / 10) = false →
      JReal.gt (calculateTasteProfile entries).ratingVolatility 0.5 →
      (classifyArchetype entries stats).id = "chaos-curator") ∧
    (stats.totalFilms < 100 → (rewatchRatio stats).jge (3 / 10) = false →
      ¬ JReal.gt (calculateTasteProfile entries).ratingVolatility 0.5 →
      4 ≤ stats.avgRating →
      (classifyArchetype entries stats).id = "prestige-purist") ∧
    (stats.totalFilms < 100 → (rewatchRatio stats).jge (3 / 10) = false →
      ¬ JReal.gt (calculateTasteProfile entries).ratingVolatility 0.5 →
      stats.avgRating < 4 →
      (classifyArchetype entries stats).id = "emotional-explorer") := by
  refine ⟨fun h1 => ?_, fun h1 h2 => ?_, fun h1 h2 h3 => ?_,
    fun h1 h2 h3 h4 => ?_, fun h1 h2 h3 h4 => ?_⟩ <;>
    unfold classifyArchetype
  · rw [if_pos h1]; rfl
  · rw [if_neg (not_le.mpr h1), if_pos h2]; rfl
  · rw [if_neg (not_le.mpr h1), if_neg (by simp [h2]), if_pos h3]; rfl
  · rw [if_neg (not_le.mpr h1), if_neg (by simp [h2]), if_neg h3, if_pos h4]; rfl
  · rw [if_neg (not_le.mpr h1), if_neg (by simp [h2]), if_neg h3, if_neg (not_le.mpr h4)]; rfl

/-- Witness for C1 at the scenario from the specification: 10 films, 4 rewatches
(ratio 0.4), average rating 3.0 — selects the Comfort Rewinder via rule 2
even though rule 4 has lower priority. -/
theorem classifyArchetype_decision_list_witness :
    (MovieStats.totalFilms ⟨10, 10, 20, 3, 4, 40⟩ < 100) ∧
    (rewatchRatio ⟨10, 10, 20, 3, 4, 40⟩).jge (3 / 10) = true ∧
    (classifyArchetype [] ⟨10, 10, 20, 3, 4, 40⟩).id = "comfort-rewinder" := by
  have hjge : (rewatchRatio ⟨10, 10, 20, 3, 4, 40⟩).jge (3 / 10) = true := by
    norm_num [rewatchRatio, jsDivCounts, JSDivResult.jge]
  exact ⟨by decide, hjge,
    (classifyArchetype_decision_list [] ⟨10, 10, 20, 3, 4, 40⟩).2.1 (by decide) hjge⟩

/-- C5 counterexample: `classifyArchetype` does not short-circuit its
rewatch-ratio division: with `totalFilms = 0` the ratio evaluates to
`NaN` (or to `Infinity` when `rewatches > 0` — which then even selects
the Comfort Rewinder), rather than to a guarded zero/default. -/
theorem rewatchRatio_unguarded :
    rewatchRatio ⟨0, 0, 0, 0, 0, 0⟩ = JSDivResult.nan ∧
    rewatchRatio ⟨0, 0, 0, 0, 0, 0⟩ ≠ JSDivResult.val 0 ∧
    rewatchRatio ⟨0, 0, 0, 0, 1, 0⟩ = JSDivResult.inf ∧
    (classifyArchetype [] ⟨0, 0, 0, 0, 1, 0⟩).id = "comfort-rewinder" := by
  refine ⟨by decide, by decide, by decide, ?_⟩
  unfold classifyArchetype
  rw [if_neg (by decide), if_pos (by decide)]
  rfl

/-- C5 amended: the division behind `rewatchPct` in `calculateStats` is
explicitly guarded (`rewatchPct = 0` when `totalFilms = 0`, the rounded
percentage otherwise), but the rewatch-ratio division of `classifyArchetype`
is not guarded: on stats with `totalFilms = 0` and `rewatches = 0` it
evaluates to `NaN`, which merely makes the `>= 0.3` comparison of rule 2
false, so classification falls through without a raised error. -/
theorem division_by_totalFilms (entries : List DiaryEntry) (stats : MovieStats) :
    (entries.length = 0 → (calculateStats entries).rewatchPct = 0) ∧
    (0 < entries.length → (calculateStats entries).rewatchPct =
      jsRound ((100 * ((calculateStats entries).rewatches : ℚ)) /
        ((calculateStats entries).totalFilms : ℚ))) ∧
    (stats.totalFilms = 0 → stats.rewatches = 0 →
      rewatchRatio stats = JSDivResult.nan ∧ (rewatchRatio stats).jge (3 / 10) = false) := by
  refine ⟨fun h => ?_, fun h => ?_, fun h0 hr => ?_⟩
  · simp [calculateStats, h]
  · simp only [calculateStats]
    rw [if_pos h]
    congr 1
    ring
  · rw [rewatchRatio, h0, hr]
    exact ⟨rfl, rfl⟩

/-- Witness for the amended theorem of C5 at the empty list and all-zero
stats. -/
theorem division_by_totalFilms_witness :
    ([] : List DiaryEntry).length = 0 ∧
    (calculateStats []).rewatchPct = 0 ∧
    rewatchRatio ⟨0, 0, 0, 0, 0, 0⟩ = JSDivResult.nan :=
  ⟨rfl, (division_by_totalFilms [] ⟨0, 0, 0, 0, 0, 0⟩).1 rfl,
    ((division_by_totalFilms [] ⟨0, 0, 0, 0, 0, 0⟩).2.2 rfl rfl).1⟩

/-- C3: on a non-empty parsed input whose year-filtered list has fewer
than 5 entries, the pipeline signals the dedicated insufficient-data
error — a constructor distinct from the no-data error — instead of
producing statistics; with 5 or more filtered entries no error is raised
and the statistics are produced. -/
theorem runAnalysis_min_entries (entries : List DiaryEntry) (currentYear : ℤ) :
    (entries ≠ [] →
      (filterByYear entries (detectTargetYear entries currentYear)).length < 5 →
      runAnalysis entries currentYear =
        .error (.insufficientData
          (filterByYear entries (detectTargetYear entries currentYear)).length
          (detectTargetYear entries currentYear)) ∧
      ∀ (n : ℕ) (y : ℤ), AnalysisError.insufficientData n y ≠ AnalysisError.noEntries) ∧
    (5 ≤ (filterByYear entries (detectTargetYear entries currentYear)).length →
      runAnalysis entries currentYear =
        .ok (detectTargetYear entries currentYear,
          filterByYear entries (detectTargetYear entries currentYear),
          calculateStats (filterByYear entries (detectTargetYear entries currentYear)))) := by
  constructor
  · intro hne hlt
    have h0 : ¬ entries.length = 0 := by
      simpa [List.length_eq_zero] using hne
    refine ⟨?_, fun n y h => AnalysisError.noConfusion h⟩
    unfold runAnalysis
    rw [if_neg h0, if_pos hlt]
  · intro hge
    have hsub : (filterByYear entries (detectTargetYear entries currentYear)).Sublist entries :=
      List.filter_sublist _
    have h0 : ¬ entries.length = 0 := by
      intro h
      have := hsub.length_le
      omega
    unfold runAnalysis
    rw [if_neg h0, if_neg (by omega)]

/-- Witness for C3: a single entry with an unparseable date is non-empty
input whose filtered list is empty, so the pipeline reports the
insufficient-data error. -/
theorem runAnalysis_min_entries_witness :
    ([entryUnrated] ≠ ([] : List DiaryEntry)) ∧
    (filterByYear [entryUnrated] (detectTargetYear [entryUnrated] 2099)).length < 5 ∧
    runAnalysis [entryUnrated] 2099 =
      .error (.insufficientData
        (filterByYear [entryUnrated] (detectTargetYear [entryUnrated] 2099)).length
        (detectTargetYear [entryUnrated] 2099)) := by
  have hy : detectTargetYear [entryUnrated] 2099 = 2099 :=
    detectTargetYear_of_no_parse (by decide) 2099
  have h1 : [entryUnrated] ≠ ([] : List DiaryEntry) := by simp
  have h2 : (filterByYear [entryUnrated] (detectTargetYear [entryUnrated] 2099)).length < 5 := by
    rw [hy]
    decide
  exact ⟨h1, h2, ((runAnalysis_min_entries [entryUnrated] 2099).1 h1 h2).1⟩

/-- C10: `calculateDistribution` always returns non-null `busiestMonth`
and `busiestDay` (the 12 month buckets and 7 day buckets are
pre-initialised to 0, so the sorted entry lists are never empty), and
when no entry has a parseable date all counts stay 0 and the stable sort leaves
the first keys in front: `busiestMonth = "Jan"`, `busiestDay = "Sunday"`,
even though both fields are typed nullable. -/
theorem calculateDistribution_busiest_nonNull (entries : List DiaryEntry) :
    (calculateDistribution entries).busiestMonth.isSome = true ∧
    (calculateDistribution entries).busiestDay.isSome = true ∧
    ((∀ e ∈ entries, jsParseDate e.Date = none) →
      (calculateDistribution entries).busiestMonth = some "Jan" ∧
      (calculateDistribution entries).busiestDay = some "Sunday") := by
  have hl := foldl_distStep_lengths entries (monthlyInit, weeklyInit)
  refine ⟨?_, ?_, fun h => ?_⟩
  · refine isSome_map_head _ _ ?_
    rw [List.length_mergeSort, hl.1]
    decide
  · refine isSome_map_head _ _ ?_
    rw [List.length_mergeSort, hl.2]
    decide
  · have hfold := foldl_distStep_of_no_parse h (monthlyInit, weeklyInit)
    have hm : (monthlyInit.mergeSort fun a b => b.2 ≤ a.2) = monthlyInit :=
      List.mergeSort_of_sorted (by decide)
    have hw : (weeklyInit.mergeSort fun a b => b.2 ≤ a.2) = weeklyInit :=
      List.mergeSort_of_sorted (by decide)
    unfold calculateDistribution
    rw [hfold]
    exact ⟨by rw [hm]; rfl, by rw [hw]; rfl⟩

/-- Witness for C10 at the empty entry list. -/
theorem calculateDistribution_busiest_nonNull_witness :
    (calculateDistribution []).busiestMonth = some "Jan" ∧
    (calculateDistribution []).busiestDay = some "Sunday" ∧
    (calculateDistribution []).busiestMonth.isSome = true :=
  ⟨((calculateDistribution_busiest_nonNull []).2.2 (by simp)).1,
    ((calculateDistribution_busiest_nonNull []).2.2 (by simp)).2,
    (calculateDistribution_busiest_nonNull []).1⟩

/-- C2: `detectTargetYear` returns a calendar year attaining the highest
count among entries whose date parses (unparseable dates are ignored),
falling back to the current system year when no date parses, and
`filterByYear` returns exactly the subset of entries whose parsed date
falls in the given year, in original relative order (a sublist). -/
theorem detectTargetYear_filterByYear_spec (entries : List DiaryEntry) (currentYear : ℤ) :
    (parsedYears entries = [] → detectTargetYear entries currentYear = currentYear) ∧
    (parsedYears entries ≠ [] →
      detectTargetYear entries currentYear ∈ parsedYears entries ∧
      ∀ y : ℤ, (parsedYears entries).count y ≤
        (parsedYears entries).count (detectTargetYear entries currentYear)) ∧
    (∀ y : ℤ, (filterByYear entries y).Sublist entries ∧
      ∀ e : DiaryEntry, e ∈ filterByYear entries y ↔ e ∈ entries ∧ entryYear e = some y) := by
  refine ⟨fun h => detectTargetYear_of_no_parse h currentYear, fun hne => ?_, fun y => ?_⟩
  · have hd : (parsedYears entries).dedup ≠ [] := by
      simpa [List.dedup_eq_nil] using hne
    have hms : ((parsedYears entries).dedup).mergeSort (fun a b => a ≤ b) ≠ [] := by
      intro h
      exact hd ((h ▸ List.mergeSort_perm (parsedYears entries).dedup _).symm.eq_nil)
    have hpairs : yearCountPairs entries ≠ [] := by
      unfold yearCountPairs
      intro h
      exact hms (List.map_eq_nil_iff.mp h)
    rcases hsrt : ((yearCountPairs entries).mergeSort (fun a b => b.2 ≤ a.2)) with _ | ⟨p, t⟩
    · exact absurd ((hsrt ▸ List.mergeSort_perm (yearCountPairs entries) _).symm.eq_nil) hpairs
    · have hp : ((yearCountPairs entries).mergeSort (fun a b => b.2 ≤ a.2)).head? = some p := by
        rw [hsrt]; rfl
      have hdty : detectTargetYear entries currentYear = p.1 := by
        unfold detectTargetYear
        rw [hp]
      obtain ⟨hpmem, hpmax⟩ := head_mergeSort_max Prod.snd (yearCountPairs entries) p hp
      obtain ⟨hy1, hy2⟩ := mem_yearCountPairs hpmem
      rw [hdty]
      refine ⟨hy1, fun y => ?_⟩
      by_cases hy : y ∈ parsedYears entries
      · have hle := hpmax _ (yearCountPairs_of_mem hy)
        rw [← hy2]
        simpa using hle
      · simp [List.count_eq_zero.mpr hy]
  · refine ⟨List.filter_sublist _, fun e => ?_⟩
    unfold filterByYear
    rw [List.mem_filter]
    unfold entryYear
    cases hpd : jsParseDate e.Date with
    | none => simp [hpd]
    | some d => simp [hpd]

/-- Witness for C2 at a concrete list spanning two years. -/
theorem detectTargetYear_filterByYear_spec_witness :
    parsedYears [entryRated4, entryRated3, entryUnrated] ≠ [] ∧
    detectTargetYear [entryRated4, entryRated3, entryUnrated] 2099 ∈
      parsedYears [entryRated4, entryRated3, entryUnrated] :=
  ⟨by decide,
    ((detectTargetYear_filterByYear_spec [entryRated4, entryRated3, entryUnrated] 2099).2.1
      (by decide)).1⟩

/-- Witness for the amended theorem of C7 at a concrete record with empty
rating and year fields. -/
theorem parseCSVRecord_rating_year_witness :
    (RawEntry.Rating ⟨"2024-01-01", "FilmE", "", "", "Yes"⟩ = "") ∧
    (parseCSVRecord ⟨"2024-01-01", "FilmE", "", "", "Yes"⟩).Rating = none ∧
    (parseCSVRecord ⟨"2024-01-01", "FilmE", "", "", "Yes"⟩).Year = JSNum.num 0 :=
  ⟨rfl,
    (parseCSVRecord_rating_year ⟨"2024-01-01", "FilmE", "", "", "Yes"⟩).1 rfl,
    (parseCSVRecord_rating_year ⟨"2024-01-01", "FilmE", "", "", "Yes"⟩).2.2 rfl⟩

end LBWrapped
